import Mathlib

/-!
Verification development for the python-chat-api repository.

The shallow embedding models the Redis-backed session/chunk store as a
`Store` (scalar keys, set-valued keys and per-key TTLs), Redis write
commands as an `Op` trace, and the repository's operations as Lean
functions over `Store`:

  * `start_session`   — `main.py`, `start_session` (lines 168-184);
  * `process_chunk`   — `services/transcribe.py`, `Transcribe.process_chunk`;
  * `fetch_answer`    — `services/question_generation.py`,
                        `QuestionGeneration.fetch_answer`;
  * `understand_gemini_speech_elevenlabs` and `generate` — same file.

External collaborators (Gemini transcription/generation, ElevenLabs TTS,
base64 decoding) are parameters: an `Option String` stands for the text a
call returned (`none` = the call raised or returned a falsy value), a
`Bool` for base64 validity, a `List String` for the TTS audio frames.
Python floats for the poll clock are modelled exactly in tenths of a
second (`0.1 s` steps against the `30 s` ceiling, i.e. 300 tenths).
Python's `sorted` on a list of distinct ints is modelled by
`List.insertionSort`, which produces the same (unique) sorted permutation.
The store may change between poll iterations of the wait loop, so
`fetch_answer` reads through an environment `env : Nat → Store` giving
the store snapshot observed at each poll; a static store is `fun _ => st`.
-/

namespace ChatApi

/-- The Redis store: scalar string keys, set-valued keys (modelled as
duplicate-free lists in insertion order) and per-key TTLs. An absent key
reads as `none` / the empty list. -/
@[ext] structure Store where
  kv : String → Option String
  sets : String → List String
  ttl : String → Option Nat

/-- A Redis write command. -/
inductive Op where
  | set (key value : String)
  | expire (key : String) (t : Nat)
  | sadd (key member : String)
  | srem (key member : String)
  deriving DecidableEq

/-- Redis `SADD` on the list model: append the member if it is not yet present. -/
def saddList (l : List String) (m : String) : List String :=
  if m ∈ l then l else l ++ [m]

/-- Redis `SREM` on the list model: remove every occurrence of the member. -/
def sremList (l : List String) (m : String) : List String :=
  l.filter (fun x => x ≠ m)

/-- Apply one Redis write command to the store. -/
def applyOp (st : Store) : Op → Store
  | .set k v => { st with kv := fun k' => if k' = k then some v else st.kv k' }
  | .expire k t => { st with ttl := fun k' => if k' = k then some t else st.ttl k' }
  | .sadd k m =>
      { st with sets := fun k' => if k' = k then saddList (st.sets k') m else st.sets k' }
  | .srem k m =>
      { st with sets := fun k' => if k' = k then sremList (st.sets k') m else st.sets k' }

/-- Apply a trace of Redis write commands in order. -/
def applyOps (st : Store) (ops : List Op) : Store :=
  ops.foldl applyOp st

/-- The store with no keys. -/
def emptyStore : Store :=
  ⟨fun _ => none, fun _ => [], fun _ => none⟩

/-- Key `session:{session_id}` (set of message ids). -/
def sessionKey (sessionId : String) : String :=
  "session:" ++ sessionId

/-- Key `session:{session_id}:current_message_id`. -/
def currentMessageKey (sessionId : String) : String :=
  "session:" ++ sessionId ++ ":current_message_id"

/-- Common stem `transcription:{session_id}:message:{message_id}` of the
per-message keys. -/
def messageBase (sessionId messageId : String) : String :=
  "transcription:" ++ sessionId ++ ":message:" ++ messageId

/-- Key `transcription:{sid}:message:{mid}:process` (in-flight chunk set). -/
def processKey (sessionId messageId : String) : String :=
  messageBase sessionId messageId ++ ":process"

/-- Key `transcription:{sid}:message:{mid}:chunk` (seen chunk set). -/
def chunkKey (sessionId messageId : String) : String :=
  messageBase sessionId messageId ++ ":chunk"

/-- Key `transcription:{sid}:message:{mid}:{chunk_number}:text`. -/
def textKey (sessionId messageId : String) (chunkNumber : Nat) : String :=
  messageBase sessionId messageId ++ ":" ++ toString chunkNumber ++ ":text"

/-- Key `transcription:{sid}:message:{mid}:assistant_response`. -/
def assistantResponseKey (sessionId messageId : String) : String :=
  messageBase sessionId messageId ++ ":assistant_response"

/-- Service-level outcome of a failing call: `validation` is Python
`ValueError`, `failure` is a generic re-raised `Exception`. -/
inductive SvcError where
  | validation (msg : String)
  | failure (msg : String)
  deriving DecidableEq

/-- Model of `main.py` `start_session`: register the initial message under the
session, set the current-message pointer, and apply the session TTL to
both keys. -/
def start_session (sessionId messageId : String) (sessionTimeout : Nat) (st : Store) : Store :=
  applyOps st
    [.sadd (sessionKey sessionId) messageId,
     .set (currentMessageKey sessionId) messageId,
     .expire (sessionKey sessionId) sessionTimeout,
     .expire (currentMessageKey sessionId) sessionTimeout]

/-- The two tracking `SADD`s of `process_chunk` (transcribe.py lines 62-67):
add the chunk number to the in-flight set, then to the seen set. -/
def beginChunkOps (sessionId messageId : String) (n : Nat) : List Op :=
  [.sadd (processKey sessionId messageId) (toString n),
   .sadd (chunkKey sessionId messageId) (toString n)]

/-- The completion writes of `process_chunk` (transcribe.py lines 96-104):
store the transcript, set its TTL, then remove the chunk from the
in-flight set — in that order. -/
def completeChunkOps (sessionId messageId : String) (n : Nat) (text : String) : List Op :=
  [.set (textKey sessionId messageId n) text,
   .expire (textKey sessionId messageId n) 86400,
   .srem (processKey sessionId messageId) (toString n)]

/-- The full write trace of a successful `process_chunk` run. -/
def processChunkSuccessOps (sessionId messageId : String) (n : Nat) (text : String) : List Op :=
  beginChunkOps sessionId messageId n ++ completeChunkOps sessionId messageId n text

/-- Model of `Transcribe.process_chunk` (transcribe.py lines 31-121). `audioValid`
models base64 decodability of `audio_data`; `geminiText` the transcription
call (`none` = the call raised or `response.text` was falsy). Returns the
store after all Redis writes together with the error raised, if any.
Validation errors (`ValueError`) are re-raised without cleanup; a generic
transcription failure removes the chunk from the in-flight set and
re-raises as `Exception("Transcription failed: ...")`. -/
def process_chunk (audioData sessionId : String) (chunkNumber : Int)
    (audioValid : Bool) (geminiText : Option String) (st : Store) :
    Store × Option SvcError :=
  if audioData = "" ∨ sessionId = "" then
    (st, some (.validation "Audio data and session ID are required"))
  else if chunkNumber < 0 then
    (st, some (.validation "Chunk number must be non-negative"))
  else
    match st.kv (currentMessageKey sessionId) with
    | none => (st, some (.validation ("Session " ++ sessionId ++ " not found or expired")))
    | some messageId =>
      if messageId = "" then
        (st, some (.validation ("Session " ++ sessionId ++ " not found or expired")))
      else
        let n := chunkNumber.toNat
        let st2 := applyOps st (beginChunkOps sessionId messageId n)
        if audioValid = false then
          (st2, some (.validation "Invalid base64 audio data"))
        else
          match geminiText with
          | none =>
            (applyOp st2 (.srem (processKey sessionId messageId) (toString n)),
             some (.failure "Transcription failed"))
          | some text =>
            if text = "" then
              (applyOp st2 (.srem (processKey sessionId messageId) (toString n)),
               some (.failure "Transcription failed: Empty transcription response from Gemini"))
            else
              (applyOps st2 (completeChunkOps sessionId messageId n text), none)

/-- Decimal digit parser for one char. -/
def digitVal? (c : Char) : Option Nat :=
  if '0' ≤ c ∧ c ≤ '9' then some (c.toNat - '0'.toNat) else none

/-- Accumulating decimal parse over a char list; fails on any non-digit. -/
def parseNatChars : List Char → Nat → Option Nat
  | [], acc => some acc
  | c :: cs, acc =>
    match digitVal? c with
    | some d => parseNatChars cs (acc * 10 + d)
    | none => none

/-- Python `int(...)` on the decimal strings `str(chunk_number)` produces:
a non-empty all-digit string parses to its value, anything else fails
(raising `ValueError` at the call site). -/
def pyInt? (s : String) : Option Nat :=
  match s.data with
  | [] => none
  | l => parseNatChars l 0

/-- Drop leading and trailing whitespace from a char list. -/
def stripChars (l : List Char) : List Char :=
  (((l.dropWhile Char.isWhitespace).reverse).dropWhile Char.isWhitespace).reverse

/-- Python `str.strip()`. -/
def pyStrip (s : String) : String :=
  ⟨stripChars s.data⟩

/-- The busy-poll wait loop of `fetch_answer` (question_generation.py lines
235-246), with the clock in tenths of a second. `scardAt k` is the
in-flight set cardinality observed at the k-th check; `k` counts the
sleeps performed so far. The loop exits when the cardinality reaches zero
or `wait_time >= max_wait_time` (300 tenths = 30 s); the fuel argument
(301 from the entry point) only bounds the recursion and is never
exhausted before the timeout check fires. Returns the number of sleeps. -/
def waitLoop (scardAt : Nat → Nat) : Nat → Nat → Nat
  | k, 0 => k
  | k, fuel + 1 =>
    if scardAt k = 0 then k
    else if 300 ≤ k then k
    else waitLoop scardAt (k + 1) fuel

/-- Concatenation step of `fetch_answer` (lines 260-270): walk the chunk
numbers in the given order and append `" " ++ text` for each chunk whose
transcript is present and truthy (non-empty); missing transcripts are
skipped (logged in the source). `txt n` is the store read of the chunk's
text key. -/
def combineChunks (txt : Nat → Option String) (nums : List Nat) : String :=
  nums.foldl
    (fun acc n =>
      match txt n with
      | some t => if t = "" then acc else acc ++ " " ++ t
      | none => acc)
    ""

/-- Result dictionary of `fetch_answer`. -/
structure FetchResult where
  user_answer : String
  session_id : String
  message_id : String
  deriving DecidableEq

/-- Model of `QuestionGeneration.fetch_answer` (question_generation.py lines
205-288). `env k` is the store snapshot observed at poll iteration `k`;
the current-message pointer is read before the loop (at `env 0`) and the
reassembly reads happen at loop exit (`env` at the number of sleeps
performed). Python's `int(...)` parse of each set member is modelled by
`pyInt?` (a non-numeric member raises, caught and re-raised as a generic
failure); `sorted` by `List.insertionSort`; `strip()` by `pyStrip`. -/
def fetch_answer (sessionId : String) (env : Nat → Store) :
    Except SvcError FetchResult :=
  if sessionId = "" then .error (.validation "Session ID is required")
  else
    match (env 0).kv (currentMessageKey sessionId) with
    | none => .error (.validation ("Session " ++ sessionId ++ " not found or expired"))
    | some messageId =>
      if messageId = "" then
        .error (.validation ("Session " ++ sessionId ++ " not found or expired"))
      else
        let iters := waitLoop
          (fun k => ((env k).sets (processKey sessionId messageId)).length) 0 301
        let st := env iters
        let members := st.sets (chunkKey sessionId messageId)
        if members = [] then .ok ⟨"", sessionId, messageId⟩
        else if members.all (fun s => (pyInt? s).isSome) then
          let nums := (members.filterMap pyInt?).insertionSort (· ≤ ·)
          .ok ⟨pyStrip (combineChunks
                  (fun n => st.kv (textKey sessionId messageId n)) nums),
               sessionId, messageId⟩
        else .error (.failure "Failed to fetch user answer: invalid chunk number")

/-- One event of the output stream (the SSE `data:` payloads). -/
inductive OutputEvent where
  | text (content : String)
  | audio (content : String)
  | error (content : String)
  deriving DecidableEq

/-- Whether an output event is an error event. -/
def isErrorEvent : OutputEvent → Bool
  | .error _ => true
  | _ => false

/-- Model of `QuestionGeneration.understand_gemini_speech_elevenlabs`
(question_generation.py lines 139-203). `geminiText` models the generation
call (`none` = raised or falsy response), `ttsFrames` the audio frames the
ElevenLabs stream delivered before `ttsFailure` (if any) raised. Every
failure is caught by the surrounding handler, which emits one terminal
error event instead of raising. Returns the emitted events and the store
after the assistant-response writes. -/
def understand_gemini_speech_elevenlabs (sessionId messageId : String)
    (geminiText : Option String) (ttsFrames : List String)
    (ttsFailure : Option String) (st : Store) : List OutputEvent × Store :=
  match geminiText with
  | none => ([.error "Speech generation failed: Empty response from Gemini"], st)
  | some t =>
    if t = "" then
      ([.error "Speech generation failed: Empty response from Gemini"], st)
    else
      let st' := applyOps st
        [.set (assistantResponseKey sessionId messageId) t,
         .expire (assistantResponseKey sessionId messageId) 86400]
      match ttsFailure with
      | none => (ttsFrames.map .audio, st')
      | some msg =>
        (ttsFrames.map .audio ++ [.error ("Speech generation failed: " ++ msg)], st')

/-- The interview prompt of `QuestionGeneration.generate` (lines 61-80),
inert to all properties proved here. -/
def interview_prompt : String :=
  "You are an excellent interviewer with 15+ years of experience conducting " ++
  "professional interviews. You need to provide a brief summary of the answer " ++
  "and ask the next appropriate question, in Bahasa Indonesia."

/-- Model of `QuestionGeneration.generate` (question_generation.py lines 32-93):
fetch the reassembled answer, reject an empty one with
`ValueError("No user answer found for session")` before any event is
yielded, otherwise stream `understand_gemini_speech_elevenlabs`. -/
def generate (sessionId : String) (geminiText : Option String)
    (ttsFrames : List String) (ttsFailure : Option String) (st : Store) :
    Except SvcError (List OutputEvent × Store) :=
  if sessionId = "" then .error (.validation "Session ID is required")
  else
    match fetch_answer sessionId (fun _ => st) with
    | .error e => .error e
    | .ok fd =>
      if fd.user_answer = "" then
        .error (.validation "No user answer found for session")
      else
        .ok (understand_gemini_speech_elevenlabs sessionId fd.message_id
          geminiText ttsFrames ttsFailure st)

/-- The store of the spec's two-chunk scenario: start a session, submit
chunk 1 with transcript "Halo", then chunk 0 with transcript
"Selamat pagi," (0 after 1). -/
def scenarioStore : Store :=
  (process_chunk "audio0" "s1" 0 true (some "Selamat pagi,")
    (process_chunk "audio1" "s1" 1 true (some "Halo")
      (start_session "s1" "m1" 3600 emptyStore)).1).1

/-- All store keys read or written on behalf of one session (with its
message id and the chunk numbers it received) across `start_session`,
`process_chunk`, `fetch_answer` and the response pipeline. -/
def sessionOpKeys (sessionId messageId : String) (chunks : List Nat) : List String :=
  sessionKey sessionId :: currentMessageKey sessionId ::
  processKey sessionId messageId :: chunkKey sessionId messageId ::
  assistantResponseKey sessionId messageId ::
  chunks.map (textKey sessionId messageId)

end ChatApi

namespace ChatApi

/-! ### Helper lemmas about the store model -/

theorem mem_saddList_self (l : List String) (m : String) : m ∈ saddList l m := by
  unfold saddList
  split
  · assumption
  · exact List.mem_append_right _ (List.mem_singleton.2 rfl)

theorem mem_saddList_of_mem {l : List String} {m : String} (m' : String)
    (h : m ∈ l) : m ∈ saddList l m' := by
  unfold saddList
  split
  · exact h
  · exact List.mem_append_left _ h

theorem not_mem_sremList_self (l : List String) (m : String) : m ∉ sremList l m := by
  intro h
  have := (List.mem_filter.1 h).2
  simp at this

theorem combineChunks_all_none (txt : Nat → Option String)
    (h : ∀ n, txt n = none) (nums : List Nat) : combineChunks txt nums = "" := by
  unfold combineChunks
  induction nums with
  | nil => rfl
  | cons n rest ih =>
    simp only [List.foldl_cons, h n]
    exact ih

theorem waitLoop_le_300 (scardAt : Nat → Nat) :
    ∀ fuel k, k ≤ 300 → 301 ≤ k + fuel → waitLoop scardAt k fuel ≤ 300 := by
  intro fuel
  induction fuel with
  | zero => intro k hk hf; omega
  | succ fuel ih =>
    intro k hk hf
    unfold waitLoop
    split
    · exact hk
    split
    · exact hk
    · exact ih (k + 1) (by omega) (by omega)

theorem waitLoop_eq_300_of_busy (scardAt : Nat → Nat) (hb : ∀ j, scardAt j ≠ 0) :
    ∀ fuel k, k ≤ 300 → 301 ≤ k + fuel → waitLoop scardAt k fuel = 300 := by
  intro fuel
  induction fuel with
  | zero => intro k hk hf; omega
  | succ fuel ih =>
    intro k hk hf
    unfold waitLoop
    split
    · exact absurd (by assumption) (hb k)
    split
    · omega
    · exact ih (k + 1) (by omega) (by omega)

end ChatApi

namespace ChatApi

/-! ### C6, C5, C10 -/

/-- C6: for every session id whose current-message pointer key is absent
(or holds a falsy value) in the store, both `process_chunk` and
`fetch_answer` fail with the `ValueError` stating the session is not
found or expired — a validation error, not an unrelated failure — and
`process_chunk` leaves the store untouched. -/
theorem missing_session_validation_error (st : Store) (sid audioData : String)
    (chunkNumber : Int) (audioValid : Bool) (geminiText : Option String)
    (hsid : sid ≠ "") (ha : audioData ≠ "") (hn : 0 ≤ chunkNumber)
    (hmiss : st.kv (currentMessageKey sid) = none ∨
             st.kv (currentMessageKey sid) = some "") :
    process_chunk audioData sid chunkNumber audioValid geminiText st =
      (st, some (.validation ("Session " ++ sid ++ " not found or expired"))) ∧
    fetch_answer sid (fun _ => st) =
      .error (.validation ("Session " ++ sid ++ " not found or expired")) := by
  have hnlt : ¬ chunkNumber < 0 := by omega
  rcases hmiss with hmiss | hmiss
  · constructor
    · simp [process_chunk, ha, hsid, hnlt, hmiss]
    · simp [fetch_answer, hsid, hmiss]
  · constructor
    · simp [process_chunk, ha, hsid, hnlt, hmiss]
    · simp [fetch_answer, hsid, hmiss]

/-- Witness for `missing_session_validation_error` at a concrete store
with no session pointer. -/
theorem missing_session_validation_error_witness :
    process_chunk "audio" "s9" 0 true (some "Halo") emptyStore =
      (emptyStore, some (.validation "Session s9 not found or expired")) ∧
    fetch_answer "s9" (fun _ => emptyStore) =
      .error (.validation "Session s9 not found or expired") :=
  missing_session_validation_error emptyStore "s9" "audio" 0 true (some "Halo")
    (by decide) (by decide) (by decide) (Or.inl rfl)

/-- C5: for a valid session whose seen-chunk set is empty, or whose seen
chunks (all well-formed decimal numbers) all lack stored transcripts,
`fetch_answer` returns the empty answer together with the message id —
an `ok` outcome, never the `SessionNotFound`-style error of a missing
session pointer. -/
theorem fetch_answer_empty_result (st : Store) (sid mid : String)
    (hsid : sid ≠ "") (hmid : mid ≠ "")
    (hkv : st.kv (currentMessageKey sid) = some mid)
    (hempty : st.sets (chunkKey sid mid) = [] ∨
      (((st.sets (chunkKey sid mid)).all (fun s => (pyInt? s).isSome)) ∧
        ∀ n, st.kv (textKey sid mid n) = none)) :
    fetch_answer sid (fun _ => st) = .ok ⟨"", sid, mid⟩ ∧
    ∀ e : SvcError, fetch_answer sid (fun _ => st) ≠ .error e := by
  have hmain : fetch_answer sid (fun _ => st) = .ok ⟨"", sid, mid⟩ := by
    rcases hempty with hempty | ⟨hall, hnone⟩
    · simp [fetch_answer, hsid, hkv, hmid, hempty]
    · by_cases hm : st.sets (chunkKey sid mid) = []
      · simp [fetch_answer, hsid, hkv, hmid, hm]
      · have hcomb :
            combineChunks (fun n => st.kv (textKey sid mid n))
              (((st.sets (chunkKey sid mid)).filterMap pyInt?).insertionSort (· ≤ ·)) = "" :=
          combineChunks_all_none _ hnone _
        simp [fetch_answer, hsid, hkv, hmid, hm, hall, hcomb, pyStrip, stripChars]
  exact ⟨hmain, fun e h => by rw [hmain] at h; exact Except.noConfusion h⟩

/-- Witness for `fetch_answer_empty_result`: a freshly started session has
an empty seen-chunk set. -/
theorem fetch_answer_empty_result_witness :
    fetch_answer "s1" (fun _ => start_session "s1" "m1" 3600 emptyStore) =
      .ok ⟨"", "s1", "m1"⟩ ∧
    ∀ e : SvcError,
      fetch_answer "s1" (fun _ => start_session "s1" "m1" 3600 emptyStore) ≠ .error e :=
  fetch_answer_empty_result (start_session "s1" "m1" 3600 emptyStore) "s1" "m1"
    (by decide) (by decide) rfl (Or.inl rfl)

/-- C10: whenever `fetch_answer` reassembles an empty answer for a session,
`generate` raises `ValueError("No user answer found for session")` and
produces no output events at all. -/
theorem generate_rejects_empty_answer (st : Store) (sid mid : String)
    (geminiText : Option String) (ttsFrames : List String) (ttsFailure : Option String)
    (h : fetch_answer sid (fun _ => st) = .ok ⟨"", sid, mid⟩) :
    generate sid geminiText ttsFrames ttsFailure st =
      .error (.validation "No user answer found for session") := by
  have hsid : sid ≠ "" := by
    intro h0
    rw [h0] at h
    simp [fetch_answer] at h
  simp [generate, hsid, h]

/-- Witness for `generate_rejects_empty_answer` on a freshly started
session (empty seen-chunk set). -/
theorem generate_rejects_empty_answer_witness :
    generate "s1" (some "text") ["frame"] none
        (start_session "s1" "m1" 3600 emptyStore) =
      .error (.validation "No user answer found for session") :=
  generate_rejects_empty_answer (start_session "s1" "m1" 3600 emptyStore)
    "s1" "m1" (some "text") ["frame"] none rfl

end ChatApi

namespace ChatApi

/-! ### C3, C7 -/

theorem combineChunks_skip_missing (txt : Nat → Option String) (c : Nat)
    (hc : txt c = none) (nums : List Nat) :
    combineChunks txt nums = combineChunks txt (nums.filter (fun n => n != c)) := by
  unfold combineChunks
  suffices h : ∀ acc : String,
      List.foldl
        (fun acc n =>
          match txt n with
          | some t => if t = "" then acc else acc ++ " " ++ t
          | none => acc) acc nums =
      List.foldl
        (fun acc n =>
          match txt n with
          | some t => if t = "" then acc else acc ++ " " ++ t
          | none => acc) acc (nums.filter (fun n => n != c)) from h ""
  induction nums with
  | nil => intro acc; rfl
  | cons n rest ih =>
    intro acc
    by_cases hn : n = c
    · subst hn
      simp only [List.filter_cons, bne_self_eq_false, List.foldl_cons, hc]
      exact ih acc
    · have : (n != c) = true := bne_iff_ne.2 hn
      simp only [List.filter_cons, this, List.foldl_cons]
      exact ih _

/-- C3: the wait loop of `fetch_answer` performs at most 300 sleeps
(30 s timeout at 0.1 s intervals) for every sequence of observed
in-flight cardinalities; if some chunk stays in-flight forever (the
cardinality never reaches zero) it exits by timeout after exactly 300
sleeps, and a chunk whose transcript was never stored contributes
nothing to the reassembled answer. -/
theorem fetch_answer_wait_bounded (scardAt : Nat → Nat)
    (txt : Nat → Option String) (c : Nat) (nums : List Nat)
    (hc : txt c = none) :
    waitLoop scardAt 0 301 ≤ 300 ∧
    ((∀ j, scardAt j ≠ 0) → waitLoop scardAt 0 301 = 300) ∧
    combineChunks txt nums = combineChunks txt (nums.filter (fun n => n != c)) :=
  ⟨waitLoop_le_300 scardAt 301 0 (by omega) (by omega),
   fun hb => waitLoop_eq_300_of_busy scardAt hb 301 0 (by omega) (by omega),
   combineChunks_skip_missing txt c hc nums⟩

/-- Witness for `fetch_answer_wait_bounded`: an in-flight set that never
drains and a chunk 0 with no stored transcript. -/
theorem fetch_answer_wait_bounded_witness :
    waitLoop (fun _ => 1) 0 301 ≤ 300 ∧
    ((∀ j, (fun _ => 1 : Nat → Nat) j ≠ 0) → waitLoop (fun _ => 1) 0 301 = 300) ∧
    combineChunks (fun _ => none) [0] =
      combineChunks (fun _ => none) ([0].filter (fun n => n != 0)) :=
  fetch_answer_wait_bounded (fun _ => 1) (fun _ => none) 0 [0] rfl

theorem processKey_ne_chunkKey (sid mid : String) :
    processKey sid mid ≠ chunkKey sid mid := by
  intro h
  have hlen := congrArg String.length h
  have h8 : (":process" : String).length = 8 := rfl
  have h6 : (":chunk" : String).length = 6 := rfl
  rw [processKey, chunkKey, String.length_append, String.length_append, h8, h6] at hlen
  omega

/-- C7: when the external transcription call fails (a non-validation
failure), `process_chunk` removes the chunk number from the message's
in-flight set, writes no scalar key (in particular no transcript text),
leaves the chunk in the seen set — a permanent gap for reassembly — and
reports the failure as a caught-and-rewrapped status, not a validation
error. -/
theorem failed_transcription_gap (st : Store) (audioData sid mid : String) (n : Nat)
    (ha : audioData ≠ "") (hs : sid ≠ "")
    (hkv : st.kv (currentMessageKey sid) = some mid) (hmid : mid ≠ "") :
    (process_chunk audioData sid (n : Int) true none st).2 =
      some (.failure "Transcription failed") ∧
    toString n ∉
      (process_chunk audioData sid (n : Int) true none st).1.sets (processKey sid mid) ∧
    (∀ k, (process_chunk audioData sid (n : Int) true none st).1.kv k = st.kv k) ∧
    toString n ∈
      (process_chunk audioData sid (n : Int) true none st).1.sets (chunkKey sid mid) := by
  have hnlt : ¬ ((n : Int) < 0) := by omega
  have hres : process_chunk audioData sid (n : Int) true none st =
      (applyOp (applyOps st (beginChunkOps sid mid n))
        (.srem (processKey sid mid) (toString n)),
       some (.failure "Transcription failed")) := by
    simp [process_chunk, ha, hs, hnlt, hkv, hmid]
  rw [hres]
  refine ⟨rfl, ?_, ?_, ?_⟩
  · simp only [applyOps, beginChunkOps, List.foldl_cons, List.foldl_nil, applyOp,
      eq_self_iff_true, if_true]
    exact not_mem_sremList_self _ _
  · intro k
    simp only [applyOps, beginChunkOps, List.foldl_cons, List.foldl_nil, applyOp]
  · simp only [applyOps, beginChunkOps, List.foldl_cons, List.foldl_nil, applyOp,
      eq_self_iff_true, if_true]
    rw [if_neg (fun h => processKey_ne_chunkKey sid mid h.symm)]
    exact mem_saddList_self _ _

/-- Witness for `failed_transcription_gap` on a fresh session. -/
theorem failed_transcription_gap_witness :
    (process_chunk "audio" "s1" (0 : Nat) true none
        (start_session "s1" "m1" 3600 emptyStore)).2 =
      some (.failure "Transcription failed") ∧
    toString 0 ∉
      (process_chunk "audio" "s1" (0 : Nat) true none
        (start_session "s1" "m1" 3600 emptyStore)).1.sets (processKey "s1" "m1") ∧
    (∀ k, (process_chunk "audio" "s1" (0 : Nat) true none
        (start_session "s1" "m1" 3600 emptyStore)).1.kv k =
      (start_session "s1" "m1" 3600 emptyStore).kv k) ∧
    toString 0 ∈
      (process_chunk "audio" "s1" (0 : Nat) true none
        (start_session "s1" "m1" 3600 emptyStore)).1.sets (chunkKey "s1" "m1") :=
  failed_transcription_gap (start_session "s1" "m1" 3600 emptyStore)
    "audio" "s1" "m1" 0 (by decide) (by decide) rfl (by decide)

end ChatApi

namespace ChatApi

/-! ### C2, C4 -/

theorem string_data_append (a b : String) : (a ++ b).data = a.data ++ b.data := by
  cases a
  cases b
  rfl

theorem currentMessageKey_ne_textKey (s1 s2 m : String) (k : Nat) :
    currentMessageKey s1 ≠ textKey s2 m k := by
  intro h
  have h2 : (currentMessageKey s1).data.head? = (textKey s2 m k).data.head? :=
    congrArg (fun s => s.data.head?) h
  have hL : (currentMessageKey s1).data.head? = some 's' := by
    simp only [currentMessageKey, string_data_append]
    rfl
  have hR : (textKey s2 m k).data.head? = some 't' := by
    simp only [textKey, messageBase, string_data_append]
    rfl
  rw [hL, hR] at h2
  exact absurd h2 (by decide)

/-- C2: on the success path, `process_chunk` performs exactly the write
trace `processChunkSuccessOps` (track in-flight, track seen, store
transcript, set its TTL, clear in-flight — in that order), and at every
step of that trace after tracking began, any state in which the chunk
number is no longer in the in-flight set already holds the transcript
text under the chunk's text key. -/
theorem transcript_stored_before_inflight_clear (st : Store)
    (audioData sid mid text : String) (n : Nat)
    (ha : audioData ≠ "") (hs : sid ≠ "")
    (hkv : st.kv (currentMessageKey sid) = some mid) (hmid : mid ≠ "")
    (htext : text ≠ "") :
    process_chunk audioData sid (n : Int) true (some text) st =
      (applyOps st (processChunkSuccessOps sid mid n text), none) ∧
    ∀ i, 1 ≤ i → i ≤ (processChunkSuccessOps sid mid n text).length →
      toString n ∉
        (applyOps st ((processChunkSuccessOps sid mid n text).take i)).sets
          (processKey sid mid) →
      (applyOps st ((processChunkSuccessOps sid mid n text).take i)).kv
        (textKey sid mid n) = some text := by
  constructor
  · have hnlt : ¬ ((n : Int) < 0) := by omega
    simp [process_chunk, ha, hs, hnlt, hkv, hmid, htext, processChunkSuccessOps,
      applyOps, List.foldl_append]
  · intro i h1 h5 hnotin
    have hlen : (processChunkSuccessOps sid mid n text).length = 5 := rfl
    rw [hlen] at h5
    interval_cases i
    · refine absurd ?_ hnotin
      simp only [processChunkSuccessOps, beginChunkOps, completeChunkOps,
        List.cons_append, List.nil_append, List.take_succ_cons, List.take_zero,
        applyOps, List.foldl_cons, List.foldl_nil, applyOp, eq_self_iff_true, if_true]
      exact mem_saddList_self _ _
    · refine absurd ?_ hnotin
      simp only [processChunkSuccessOps, beginChunkOps, completeChunkOps,
        List.cons_append, List.nil_append, List.take_succ_cons, List.take_zero,
        applyOps, List.foldl_cons, List.foldl_nil, applyOp, eq_self_iff_true, if_true]
      split
      · exact mem_saddList_self _ _
      · exact mem_saddList_self _ _
    · refine absurd ?_ hnotin
      simp only [processChunkSuccessOps, beginChunkOps, completeChunkOps,
        List.cons_append, List.nil_append, List.take_succ_cons, List.take_zero,
        applyOps, List.foldl_cons, List.foldl_nil, applyOp, eq_self_iff_true, if_true]
      split
      · exact mem_saddList_self _ _
      · exact mem_saddList_self _ _
    · refine absurd ?_ hnotin
      simp only [processChunkSuccessOps, beginChunkOps, completeChunkOps,
        List.cons_append, List.nil_append, List.take_succ_cons, List.take_zero,
        applyOps, List.foldl_cons, List.foldl_nil, applyOp, eq_self_iff_true, if_true]
      split
      · exact mem_saddList_self _ _
      · exact mem_saddList_self _ _
    · simp only [processChunkSuccessOps, beginChunkOps, completeChunkOps,
        List.cons_append, List.nil_append, List.take_succ_cons, List.take_zero,
        applyOps, List.foldl_cons, List.foldl_nil, applyOp, eq_self_iff_true, if_true]

/-- Witness for `transcript_stored_before_inflight_clear` on a fresh
session processing chunk 0 with transcript "Halo". -/
theorem transcript_stored_before_inflight_clear_witness :
    process_chunk "audio" "s1" ((0 : Nat) : Int) true (some "Halo")
        (start_session "s1" "m1" 3600 emptyStore) =
      (applyOps (start_session "s1" "m1" 3600 emptyStore)
        (processChunkSuccessOps "s1" "m1" 0 "Halo"), none) ∧
    ∀ i, 1 ≤ i → i ≤ (processChunkSuccessOps "s1" "m1" 0 "Halo").length →
      toString 0 ∉
        (applyOps (start_session "s1" "m1" 3600 emptyStore)
          ((processChunkSuccessOps "s1" "m1" 0 "Halo").take i)).sets
          (processKey "s1" "m1") →
      (applyOps (start_session "s1" "m1" 3600 emptyStore)
        ((processChunkSuccessOps "s1" "m1" 0 "Halo").take i)).kv
        (textKey "s1" "m1" 0) = some "Halo" :=
  transcript_stored_before_inflight_clear (start_session "s1" "m1" 3600 emptyStore)
    "audio" "s1" "m1" "Halo" 0 (by decide) (by decide) rfl (by decide) (by decide)

end ChatApi

namespace ChatApi

theorem saddList_eq_of_mem {l : List String} {m : String} (h : m ∈ l) :
    saddList l m = l := by
  unfold saddList
  rw [if_pos h]

/-- C4: chunk tracking is idempotent — if the chunk number is already in
both the in-flight and the seen set, replaying the two tracking `SADD`s
of `process_chunk` leaves the store (in particular the seen-set
cardinality) unchanged — and resubmitting a duplicate chunk number makes
the later transcript overwrite the earlier one. -/
theorem begin_chunk_idempotent_overwrite (st : Store) (audioData sid mid : String)
    (n : Nat) (t1 t2 : String)
    (ha : audioData ≠ "") (hs : sid ≠ "")
    (hkv : st.kv (currentMessageKey sid) = some mid) (hmid : mid ≠ "")
    (hin1 : toString n ∈ st.sets (processKey sid mid))
    (hin2 : toString n ∈ st.sets (chunkKey sid mid))
    (ht1 : t1 ≠ "") (ht2 : t2 ≠ "") :
    applyOps st (beginChunkOps sid mid n) = st ∧
    ((applyOps st (beginChunkOps sid mid n)).sets (chunkKey sid mid)).length =
      (st.sets (chunkKey sid mid)).length ∧
    (process_chunk audioData sid (n : Int) true (some t2)
        (process_chunk audioData sid (n : Int) true (some t1) st).1).1.kv
      (textKey sid mid n) = some t2 := by
  have heq : applyOps st (beginChunkOps sid mid n) = st := by
    simp only [applyOps, beginChunkOps, List.foldl_cons, List.foldl_nil, applyOp]
    refine Store.ext rfl ?_ rfl
    funext k'
    dsimp only
    split
    · rename_i hck
      split
      · rename_i hpk
        have e1 : saddList (st.sets k') (toString n) = st.sets k' :=
          saddList_eq_of_mem (hpk.symm ▸ hin1)
        rw [e1, saddList_eq_of_mem (hck.symm ▸ hin2)]
      · rw [saddList_eq_of_mem (hck.symm ▸ hin2)]
    · split
      · rename_i hck hpk
        rw [saddList_eq_of_mem (hpk.symm ▸ hin1)]
      · rfl
  have hnlt : ¬ ((n : Int) < 0) := by omega
  have hrun1 : (process_chunk audioData sid (n : Int) true (some t1) st).1 =
      applyOps st (processChunkSuccessOps sid mid n t1) := by
    simp [process_chunk, ha, hs, hnlt, hkv, hmid, ht1, processChunkSuccessOps,
      applyOps, List.foldl_append]
  have hkv1 : (applyOps st (processChunkSuccessOps sid mid n t1)).kv
      (currentMessageKey sid) = some mid := by
    simp only [processChunkSuccessOps, beginChunkOps, completeChunkOps,
      List.cons_append, List.nil_append, applyOps, List.foldl_cons, List.foldl_nil,
      applyOp]
    rw [if_neg (currentMessageKey_ne_textKey sid sid mid n)]
    exact hkv
  have hrun2 : (process_chunk audioData sid (n : Int) true (some t2)
      (applyOps st (processChunkSuccessOps sid mid n t1))).1 =
      applyOps (applyOps st (processChunkSuccessOps sid mid n t1))
        (processChunkSuccessOps sid mid n t2) := by
    have hkv2 := hkv1
    simp only [processChunkSuccessOps, applyOps, List.foldl_append] at hkv2
    simp [process_chunk, ha, hs, hnlt, hkv2, hmid, ht2, processChunkSuccessOps,
      applyOps, List.foldl_append]
  refine ⟨heq, by rw [heq], ?_⟩
  rw [hrun1, hrun2]
  simp only [processChunkSuccessOps, beginChunkOps, completeChunkOps,
    List.cons_append, List.nil_append, applyOps, List.foldl_cons, List.foldl_nil,
    applyOp, eq_self_iff_true, if_true]

/-- Witness for `begin_chunk_idempotent_overwrite`: chunk 0 already
tracked on a fresh session; resubmitted with transcripts "a" then "b". -/
theorem begin_chunk_idempotent_overwrite_witness :
    applyOps (applyOps (start_session "s1" "m1" 3600 emptyStore)
        (beginChunkOps "s1" "m1" 0)) (beginChunkOps "s1" "m1" 0) =
      applyOps (start_session "s1" "m1" 3600 emptyStore) (beginChunkOps "s1" "m1" 0) ∧
    ((applyOps (applyOps (start_session "s1" "m1" 3600 emptyStore)
        (beginChunkOps "s1" "m1" 0)) (beginChunkOps "s1" "m1" 0)).sets
        (chunkKey "s1" "m1")).length =
      ((applyOps (start_session "s1" "m1" 3600 emptyStore)
        (beginChunkOps "s1" "m1" 0)).sets (chunkKey "s1" "m1")).length ∧
    (process_chunk "audio" "s1" ((0 : Nat) : Int) true (some "b")
        (process_chunk "audio" "s1" ((0 : Nat) : Int) true (some "a")
          (applyOps (start_session "s1" "m1" 3600 emptyStore)
            (beginChunkOps "s1" "m1" 0))).1).1.kv
      (textKey "s1" "m1" 0) = some "b" :=
  begin_chunk_idempotent_overwrite
    (applyOps (start_session "s1" "m1" 3600 emptyStore) (beginChunkOps "s1" "m1" 0))
    "audio" "s1" "m1" 0 "a" "b" (by decide) (by decide) rfl (by decide)
    (by decide) (by decide) (by decide) (by decide)

end ChatApi

namespace ChatApi

/-! ### C8, C1 -/

/-- C8: whenever the external generation call or the speech-synthesis
stream fails, `understand_gemini_speech_elevenlabs` ends its output with
exactly one terminal error event and emits no error event anywhere
earlier in the sequence — failures surface as stream vocabulary, not as
exceptions. -/
theorem stream_failure_terminal_error (sid mid : String) (geminiText : Option String)
    (ttsFrames : List String) (ttsFailure : Option String) (st : Store)
    (hfail : geminiText = none ∨ geminiText = some "" ∨ ∃ m, ttsFailure = some m) :
    ∃ msg,
      (understand_gemini_speech_elevenlabs sid mid geminiText ttsFrames
        ttsFailure st).1.getLast? = some (.error msg) ∧
      ∀ e ∈ (understand_gemini_speech_elevenlabs sid mid geminiText ttsFrames
        ttsFailure st).1.dropLast, isErrorEvent e = false := by
  cases geminiText with
  | none =>
    refine ⟨"Speech generation failed: Empty response from Gemini", ?_, ?_⟩
    · simp [understand_gemini_speech_elevenlabs]
    · intro e he
      simp [understand_gemini_speech_elevenlabs] at he
  | some t =>
    by_cases ht : t = ""
    · subst ht
      refine ⟨"Speech generation failed: Empty response from Gemini", ?_, ?_⟩
      · simp [understand_gemini_speech_elevenlabs]
      · intro e he
        simp [understand_gemini_speech_elevenlabs] at he
    · rcases hfail with h | h | ⟨m, hm⟩
      · exact absurd h (by simp)
      · exact absurd (Option.some.inj h) ht
      · subst hm
        refine ⟨"Speech generation failed: " ++ m, ?_, ?_⟩
        · simp [understand_gemini_speech_elevenlabs, ht]
        · intro e he
          simp [understand_gemini_speech_elevenlabs, ht] at he
          rcases he with ⟨a, _, rfl⟩
          rfl

/-- Witness for `stream_failure_terminal_error`: the TTS stream fails
after one delivered frame. -/
theorem stream_failure_terminal_error_witness :
    ∃ msg,
      (understand_gemini_speech_elevenlabs "s1" "m1" (some "hi") ["f1"]
        (some "boom") emptyStore).1.getLast? = some (.error msg) ∧
      ∀ e ∈ (understand_gemini_speech_elevenlabs "s1" "m1" (some "hi") ["f1"]
        (some "boom") emptyStore).1.dropLast, isErrorEvent e = false :=
  stream_failure_terminal_error "s1" "m1" (some "hi") ["f1"] (some "boom")
    emptyStore (Or.inr (Or.inr ⟨"boom", rfl⟩))

theorem perm_all_eq {α : Type} {l₁ l₂ : List α} (h : l₁.Perm l₂) (p : α → Bool) :
    l₁.all p = l₂.all p := by
  by_cases hp : ∀ x ∈ l₂, p x = true
  · rw [List.all_eq_true.2 hp, List.all_eq_true.2 (fun x hx => hp x (h.mem_iff.1 hx))]
  · cases hb1 : l₁.all p with
    | false =>
      cases hb2 : l₂.all p with
      | false => rfl
      | true => exact absurd (fun x hx => (List.all_eq_true.1 hb2) x hx) hp
    | true =>
      exact absurd
        (fun x hx => (List.all_eq_true.1 hb1) x (h.mem_iff.2 hx)) hp

theorem insertionSort_eq_of_perm {l₁ l₂ : List Nat} (h : l₁.Perm l₂) :
    List.insertionSort (· ≤ ·) l₁ = List.insertionSort (· ≤ ·) l₂ :=
  List.eq_of_perm_of_sorted
    (((List.perm_insertionSort _ l₁).trans h).trans
      (List.perm_insertionSort _ l₂).symm)
    (List.sorted_insertionSort _ l₁) (List.sorted_insertionSort _ l₂)

/-- C1: the reassembled answer depends only on the store contents, not on
the order in which the seen-chunk set lists its members (i.e. not on
submission/completion order): stores with identical scalar keys whose set
keys are permutations of each other give identical `fetch_answer`
results. In the spec's scenario — chunk 1 "Halo" submitted before chunk 0
"Selamat pagi," — reassembly returns "Selamat pagi, Halo", the ascending
numeric chunk order joined by single spaces and trimmed. -/
theorem fetch_answer_order_independent :
    (∀ (st₁ st₂ : Store) (sid : String), st₁.kv = st₂.kv →
      (∀ k, (st₁.sets k).Perm (st₂.sets k)) →
      fetch_answer sid (fun _ => st₁) = fetch_answer sid (fun _ => st₂)) ∧
    fetch_answer "s1" (fun _ => scenarioStore) =
      .ok ⟨"Selamat pagi, Halo", "s1", "m1"⟩ := by
  constructor
  · intro st₁ st₂ sid hkv hperm
    unfold fetch_answer
    by_cases hsid : sid = ""
    · rw [if_pos hsid, if_pos hsid]
    · rw [if_neg hsid, if_neg hsid]
      dsimp only
      rw [hkv]
      cases hm : st₂.kv (currentMessageKey sid) with
      | none => rfl
      | some mid =>
        dsimp only
        by_cases hmid : mid = ""
        · rw [if_pos hmid, if_pos hmid]
        · rw [if_neg hmid, if_neg hmid]
          by_cases hnil : st₂.sets (chunkKey sid mid) = []
          · have hnil1 : st₁.sets (chunkKey sid mid) = [] :=
              (hnil ▸ hperm (chunkKey sid mid)).eq_nil
            rw [if_pos hnil1, if_pos hnil]
          · have hnil1 : ¬ st₁.sets (chunkKey sid mid) = [] := by
              intro hc
              exact hnil ((hc ▸ hperm (chunkKey sid mid)).symm.eq_nil)
            rw [if_neg hnil1, if_neg hnil]
            have hall := perm_all_eq (hperm (chunkKey sid mid))
              (fun s => (pyInt? s).isSome)
            rw [hall]
            have hsort :
                ((st₁.sets (chunkKey sid mid)).filterMap pyInt?).insertionSort
                  (· ≤ ·) =
                ((st₂.sets (chunkKey sid mid)).filterMap pyInt?).insertionSort
                  (· ≤ ·) :=
              insertionSort_eq_of_perm ((hperm (chunkKey sid mid)).filterMap pyInt?)
            rw [hsort]
  · rfl

/-- Witness for `fetch_answer_order_independent` at the scenario store
(reflexive permutation of its set keys). -/
theorem fetch_answer_order_independent_witness :
    fetch_answer "s1" (fun _ => scenarioStore) =
      fetch_answer "s1" (fun _ => scenarioStore) ∧
    fetch_answer "s1" (fun _ => scenarioStore) =
      .ok ⟨"Selamat pagi, Halo", "s1", "m1"⟩ :=
  ⟨fetch_answer_order_independent.1 scenarioStore scenarioStore "s1" rfl
    (fun _ => List.Perm.refl _),
   fetch_answer_order_independent.2⟩

end ChatApi

namespace ChatApi

/-! ### C9 -/

theorem string_eq_of_data {a b : String} (h : a.data = b.data) : a = b := by
  cases a
  cases b
  cases h
  rfl

theorem heads_ne (c1 c2 : Char) {l1 l2 : List Char} (h : l1 = l2)
    (hc : c1 ≠ c2) (h1 : l1.head? = some c1) (h2 : l2.head? = some c2) : False := by
  rw [h, h2] at h1
  exact hc (Option.some.inj h1).symm

theorem colonfree_split {l1 l2 r1 r2 : List Char}
    (h1 : (':' : Char) ∉ l1) (h2 : (':' : Char) ∉ l2)
    (h : l1 ++ ':' :: r1 = l2 ++ ':' :: r2) : l1 = l2 := by
  induction l1 generalizing l2 with
  | nil =>
    cases l2 with
    | nil => rfl
    | cons c cs =>
      simp only [List.nil_append, List.cons_append] at h
      have hc := (List.cons.inj h).1
      exact absurd (hc ▸ List.mem_cons_self c cs) h2
  | cons c cs ih =>
    cases l2 with
    | nil =>
      simp only [List.cons_append, List.nil_append] at h
      have hc := (List.cons.inj h).1
      exact absurd (hc ▸ List.mem_cons_self c cs) h1
    | cons d ds =>
      simp only [List.cons_append] at h
      have hc := (List.cons.inj h).1
      have ht := (List.cons.inj h).2
      have h1' : (':' : Char) ∉ cs := fun hm => h1 (List.mem_cons_of_mem _ hm)
      have h2' : (':' : Char) ∉ ds := fun hm => h2 (List.mem_cons_of_mem _ hm)
      rw [hc, ih h1' h2' ht]

theorem keyShape (s m : String) (c : List Nat) :
    ∀ k ∈ sessionOpKeys s m c,
      k.data = ("session:" : String).data ++ s.data ∨
      k.data = ("session:" : String).data ++ s.data ++
        ':' :: ("current_message_id" : String).data ∨
      ∃ r, k.data = ("transcription:" : String).data ++ s.data ++ ':' :: r := by
  intro k hk
  simp only [sessionOpKeys, List.mem_cons, List.mem_map] at hk
  rcases hk with rfl | rfl | rfl | rfl | rfl | ⟨n, _, rfl⟩
  · left
    simp only [sessionKey, string_data_append]
  · right; left
    simp only [currentMessageKey, string_data_append, List.append_assoc]
  · right; right
    refine ⟨("message:" : String).data ++ m.data ++ (":process" : String).data, ?_⟩
    simp only [processKey, messageBase, string_data_append, List.append_assoc]
    rfl
  · right; right
    refine ⟨("message:" : String).data ++ m.data ++ (":chunk" : String).data, ?_⟩
    simp only [chunkKey, messageBase, string_data_append, List.append_assoc]
    rfl
  · right; right
    refine ⟨("message:" : String).data ++ m.data ++
      (":assistant_response" : String).data, ?_⟩
    simp only [assistantResponseKey, messageBase, string_data_append, List.append_assoc]
    rfl
  · right; right
    refine ⟨("message:" : String).data ++ m.data ++ (":" : String).data ++
      (toString n).data ++ (":text" : String).data, ?_⟩
    simp only [textKey, messageBase, string_data_append, List.append_assoc]
    rfl

/-- C9 counterexample: for arbitrary identifier strings the claimed
disjointness is false — two distinct session ids whose text keys for
chunk 5 coincide, because the `:`-separated namespacing is ambiguous
when identifiers themselves contain `:`. -/
theorem session_keys_collision :
    ("x" : String) ≠ "x:message:y" ∧
    textKey "x" "y:message:z" 5 = textKey "x:message:y" "z" 5 ∧
    textKey "x" "y:message:z" 5 ∈ sessionOpKeys "x" "y:message:z" [5] ∧
    textKey "x:message:y" "z" 5 ∈ sessionOpKeys "x:message:y" "z" [5] := by
  refine ⟨by decide, by decide, ?_, ?_⟩
  · simp [sessionOpKeys]
  · simp [sessionOpKeys]

/-- C9 (amended): for session identifiers containing no `:` — as the
uuid4 identifiers generated by `start_session` always are — the store
keys read or written on behalf of distinct sessions are pairwise
distinct, so no operation on one session can observe or alter another
session's data. -/
theorem session_keys_disjoint_colonfree (s1 s2 m1 m2 : String)
    (c1 c2 : List Nat)
    (h1 : (':' : Char) ∉ s1.data) (h2 : (':' : Char) ∉ s2.data) (hne : s1 ≠ s2) :
    ∀ k1 ∈ sessionOpKeys s1 m1 c1, ∀ k2 ∈ sessionOpKeys s2 m2 c2, k1 ≠ k2 := by
  intro k1 hk1 k2 hk2 heq
  have hd : k1.data = k2.data := congrArg String.data heq
  rcases keyShape s1 m1 c1 k1 hk1 with e1 | e1 | ⟨r1, e1⟩ <;>
    rcases keyShape s2 m2 c2 k2 hk2 with e2 | e2 | ⟨r2, e2⟩ <;>
    rw [e1, e2] at hd
  · exact hne (string_eq_of_data (List.append_cancel_left hd))
  · rw [List.append_assoc] at hd
    have hd' := List.append_cancel_left hd
    have : (':' : Char) ∈ s1.data := by
      rw [hd']
      exact List.mem_append_right _ (List.mem_cons_self _ _)
    exact h1 this
  · exact heads_ne 's' 't' hd (by decide) rfl rfl
  · rw [List.append_assoc] at hd
    have hd' := (List.append_cancel_left hd).symm
    have : (':' : Char) ∈ s2.data := by
      rw [hd']
      exact List.mem_append_right _ (List.mem_cons_self _ _)
    exact h2 this
  · rw [List.append_assoc, List.append_assoc] at hd
    exact hne (string_eq_of_data
      (colonfree_split h1 h2 (List.append_cancel_left hd)))
  · exact heads_ne 's' 't' hd (by decide) rfl rfl
  · exact heads_ne 't' 's' hd (by decide) rfl rfl
  · exact heads_ne 't' 's' hd (by decide) rfl rfl
  · rw [List.append_assoc, List.append_assoc] at hd
    exact hne (string_eq_of_data
      (colonfree_split h1 h2 (List.append_cancel_left hd)))

/-- Witness for `session_keys_disjoint_colonfree` at two concrete
colon-free session ids, instantiated at their chunk-0 text keys. -/
theorem session_keys_disjoint_colonfree_witness :
    textKey "a" "m1" 0 ≠ textKey "b" "m2" 0 :=
  session_keys_disjoint_colonfree "a" "b" "m1" "m2" [0] [0]
    (by decide) (by decide) (by decide)
    (textKey "a" "m1" 0) (by simp [sessionOpKeys])
    (textKey "b" "m2" 0) (by simp [sessionOpKeys])

end ChatApi
